import Mathlib

/-!
Shallow embedding of the algorithmic content of the
Microwave-Lab-Pyvisa-Python-Instrument-Control repository.

Part 1 embeds the noise-floor estimation block of
`MS2038C_Spectrum Analyzer_capture_and_plot_trace.py` (the two parse/repair
passes over the raw token list, the median-based imputation, the
median-plus-10-dB thresholding, and the mean reduction).

Python/numpy floats are modelled as `NFloat := Option ℚ`: `some q` is the
finite value `q` and `none` is NaN.  The trace values that arise here are
finite decimal literals, so rationals represent them exactly; NaN arises only
through `np.median` / `np.mean` of an empty array, which numpy defines to
return NaN (with a runtime warning) rather than raise.  Comparisons against
NaN are false and arithmetic with NaN yields NaN, exactly as in IEEE/numpy.

Part 2 embeds `configure_afg1022` from `Tektronix AFG1022/afg1022_configurable.py`
as a pure function that returns the list of VISA operations it would perform
together with either a `ValueError`-style validation error or the settings
dictionary; the instrument is a pure response oracle `String → String`.
-/

/-- A Python/numpy float: `some q` is the finite rational value `q`,
`none` is NaN. -/
abbrev NFloat : Type := Option ℚ

/-- NaN-aware strict comparison: `a < b` in numpy is false whenever either
side is NaN. -/
def nlt : NFloat → NFloat → Bool
  | some a, some b => decide (a < b)
  | _, _ => false

/-- NaN-aware addition: NaN plus anything is NaN. -/
def nadd : NFloat → NFloat → NFloat
  | some a, some b => some (a + b)
  | _, _ => none

/-- Numeric value of a digit character, `none` for a non-digit. -/
def digitVal (c : Char) : Option ℕ :=
  if c.isDigit then some (c.toNat - 48) else none

/-- Value of a digit string as a natural number, `none` if any character is
not a digit. -/
def decDigits : List Char → Option ℕ
  | [] => some 0
  | c :: cs =>
    match digitVal c, decDigits cs with
    | some d, some v => some (d * 10 ^ cs.length + v)
    | _, _ => none

/-- Model of Python `float(token)` on the finite decimal literals the
instrument link produces: optional sign, integer digits, optional fractional
digits.  Returns `none` when the token is malformed (the `except:` path of the
source).  -/
def pyFloat (s : String) : Option ℚ :=
  let cs := s.data
  let sign : ℚ := if cs.head? = some '-' then -1 else 1
  let body : List Char :=
    if cs.head? = some '-' || cs.head? = some '+' then cs.tail else cs
  let intPart := body.takeWhile (fun c => !(c = '.'))
  let rest := body.dropWhile (fun c => !(c = '.'))
  if rest.isEmpty then
    match decDigits intPart with
    | some v => if intPart.isEmpty then none else some (sign * v)
    | none => none
  else
    let frac := rest.tail
    match decDigits intPart, decDigits frac with
    | some v, some f =>
      if intPart.isEmpty && frac.isEmpty then none
      else some (sign * ((v : ℚ) + (f : ℚ) / 10 ^ frac.length))
    | _, _ => none

/-- Median of a list of rationals, exactly as `np.median`: sort ascending,
take the middle element for odd length, the average of the two middle
elements for even length.  (Only used on nonempty lists; the default `0`
of `getD` is never read there.) -/
def ratMedian (l : List ℚ) : ℚ :=
  let s := List.insertionSort (fun a b => a ≤ b) l
  let n := s.length
  if n % 2 = 1 then s.getD (n / 2) 0
  else (s.getD (n / 2 - 1) 0 + s.getD (n / 2) 0) / 2

/-- Arithmetic mean of a list of rationals, as `np.mean` on a nonempty list. -/
def ratMean (l : List ℚ) : ℚ :=
  l.sum / (l.length : ℚ)

/-- `np.median` on possibly-NaN data: NaN if the array is empty or contains
a NaN, otherwise the rational median. -/
def pymedian (xs : List NFloat) : NFloat :=
  if xs.isEmpty || xs.any (fun v => v.isNone) then none
  else some (ratMedian (xs.filterMap id))

/-- `np.mean` on possibly-NaN data: NaN if the array is empty (0/0) or
contains a NaN, otherwise the rational mean. -/
def pymean (xs : List NFloat) : NFloat :=
  if xs.isEmpty || xs.any (fun v => v.isNone) then none
  else some (ratMean (xs.filterMap id))

/-- First repair pass of the source: parse each token, keep the successfully
parsed values only (`trace_data_float` after the first `for` loop). -/
def firstPass (toks : List String) : List ℚ :=
  toks.filterMap pyFloat

/-- The source's first `noise_floor = np.median(trace_data_float)` (line 133):
the substitution placeholder for malformed tokens. -/
def noiseFloorFirst (toks : List String) : NFloat :=
  pymedian ((firstPass toks).map some)

/-- Second repair pass with an explicit placeholder `p`: parse each token,
substitute `p` on failure.  The source instantiates `p` with
`noiseFloorFirst`. -/
def cleanedTraceWith (p : NFloat) (toks : List String) : List NFloat :=
  toks.map (fun t =>
    match pyFloat t with
    | some v => some v
    | none => p)

/-- `trace_data_float` after the second repair pass of the source
(lines 134-140): malformed entries replaced by the first-pass median. -/
def cleanedTrace (toks : List String) : List NFloat :=
  cleanedTraceWith (noiseFloorFirst toks) toks

/-- `median_power = np.median(trace_data_float)` (line 146). -/
def medianPower (toks : List String) : NFloat :=
  pymedian (cleanedTrace toks)

/-- `threshold = median_power + 10` (line 147). -/
def thresholdOf (toks : List String) : NFloat :=
  nadd (medianPower toks) (some 10)

/-- `noise_data`: the cleaned-trace values strictly below the threshold
(lines 149-153). -/
def noiseData (toks : List String) : List NFloat :=
  (cleanedTrace toks).filter (fun v => nlt v (thresholdOf toks))

/-- The final `noise_floor = np.mean(noise_data)` (line 155). -/
def noiseFloorFinal (toks : List String) : NFloat :=
  pymean (noiseData toks)

/-- The whole estimator: raw tokens to `(cleaned_trace, noise_floor)`. -/
def estimate (toks : List String) : List NFloat × NFloat :=
  (cleanedTrace toks, noiseFloorFinal toks)

/-- Steps 2-3 of spec section 4.1 as a function of the cleaned trace alone:
mean of the values strictly below `median + 10`. -/
def noiseFloorOfCleaned (xs : List NFloat) : NFloat :=
  pymean (xs.filter (fun v => nlt v (nadd (pymedian xs) (some 10))))

/-- The estimator with the first median computation replaced by an arbitrary
placeholder `p` (used to state what removing that computation would do). -/
def estimateWith (p : NFloat) (toks : List String) : List NFloat × NFloat :=
  (cleanedTraceWith p toks, noiseFloorOfCleaned (cleanedTraceWith p toks))

example : pyFloat "1.0" = some 1 := by with_unfolding_all decide
example : pyFloat "x" = none := by with_unfolding_all decide
example : firstPass ["1.0", "x", "3.0", "5.0"] = [1, 3, 5] := by
  with_unfolding_all decide
example : ratMedian [1, 3, 5] = 3 := by with_unfolding_all decide
example : cleanedTrace ["1.0", "x", "3.0", "5.0"] =
    [some 1, some 3, some 3, some 5] := by with_unfolding_all decide
example : estimate ["1.0", "x", "3.0", "5.0"] =
    ([some 1, some 3, some 3, some 5], some 3) := by with_unfolding_all decide

/-- A VISA-level operation performed by `configure_afg1022`, in order. -/
inductive VisaOp where
  | openRM : VisaOp
  | openResource : String → VisaOp
  | write : String → VisaOp
  | query : String → VisaOp
  | closeInst : VisaOp
  | closeRM : VisaOp
deriving DecidableEq

/-- The `ValueError`s `configure_afg1022` can raise during input validation,
before any VISA resource is touched. -/
inductive AfgError where
  | badChannel : AfgError
  | badWaveform : AfgError
  | badFrequency : String → AfgError
  | badOutputState : AfgError
deriving DecidableEq

instance {ε α : Type} [DecidableEq ε] [DecidableEq α] :
    DecidableEq (Except ε α) := fun a b =>
  match a, b with
  | Except.error e, Except.error f =>
    if h : e = f then isTrue (by rw [h])
    else isFalse (fun hh => by cases hh; exact h rfl)
  | Except.error _, Except.ok _ => isFalse (fun hh => by cases hh)
  | Except.ok _, Except.error _ => isFalse (fun hh => by cases hh)
  | Except.ok x, Except.ok y =>
    if h : x = y then isTrue (by rw [h])
    else isFalse (fun hh => by cases hh; exact h rfl)

/-- `valid_waveforms` of the source. -/
def validWaveforms : List String :=
  ["SIN", "SQU", "RAMP", "PULS", "NOIS", "DC", "ARB"]

/-- `freq_limits` of the source: lower/upper bound in Hz per waveform,
`none` for the `(None, None)` entries of `NOIS` and `DC`. -/
def freqLimits (w : String) : Option (ℚ × ℚ) :=
  if w = "SIN" then some (1 / 1000000, 25000000)
  else if w = "SQU" then some (1 / 1000000, 25000000)
  else if w = "RAMP" then some (1 / 1000000, 500000)
  else if w = "PULS" then some (1 / 1000000, 12500000)
  else if w = "ARB" then some (1 / 1000000, 10000000)
  else none

/-- The source's frequency range test
`frequency < freq_limits[waveform][0] or frequency > freq_limits[waveform][1]`
(evaluated only when the waveform is frequency-limited). -/
def freqOutOfRange (w : String) (frequency : ℚ) : Bool :=
  match freqLimits w with
  | some (lo, hi) => decide (frequency < lo) || decide (frequency > hi)
  | none => false

/-- Shallow embedding of `configure_afg1022`.  The instrument is a pure
response oracle `resp` mapping each SCPI query string to the reply string.
The result is the ordered list of VISA operations performed together with
either the validation `ValueError` (in which case no operation has been
performed) or the returned settings dictionary as an ordered association
list.  The `try/except` wrapper of the source only re-wraps exceptions coming
from the VISA layer, which the pure oracle never raises. -/
def configureAfg1022 (resp : String → String) (visaAddress : String)
    (channel : ℤ) (waveform : String) (frequency : ℚ) (amplitude : ℚ)
    (offset : ℚ) (outputState : String) (reset : Bool) :
    List VisaOp × Except AfgError (List (String × String)) :=
  if channel ∉ ([1, 2] : List ℤ) then
    ([], Except.error AfgError.badChannel)
  else
    let w := waveform.toUpper
    if w ∉ validWaveforms then
      ([], Except.error AfgError.badWaveform)
    else if w ∉ (["NOIS", "DC"] : List String) ∧ freqOutOfRange w frequency then
      ([], Except.error (AfgError.badFrequency w))
    else if outputState ∉ (["ON", "OFF"] : List String) then
      ([], Except.error AfgError.badOutputState)
    else
      let ch := "SOUR" ++ toString channel
      let ops : List VisaOp :=
        [VisaOp.openRM, VisaOp.openResource visaAddress] ++
        (if reset then [VisaOp.write "*RST"] else []) ++
        [VisaOp.write (ch ++ ":FUNC " ++ w)] ++
        (if w ∉ (["NOIS", "DC"] : List String) then
          [VisaOp.write (ch ++ ":FREQ " ++ toString frequency)]
        else []) ++
        [VisaOp.write (ch ++ ":VOLT " ++ toString amplitude),
         VisaOp.write (ch ++ ":VOLT:OFFS " ++ toString offset),
         VisaOp.write ("OUTP" ++ toString channel ++ " " ++ outputState),
         VisaOp.query (ch ++ ":FUNC?")] ++
        (if w ∉ (["NOIS", "DC"] : List String) then
          [VisaOp.query (ch ++ ":FREQ?")]
        else []) ++
        [VisaOp.query (ch ++ ":VOLT?"),
         VisaOp.query (ch ++ ":VOLT:OFFS?"),
         VisaOp.query ("OUTP" ++ toString channel ++ "?"),
         VisaOp.query "SYST:ERR?",
         VisaOp.closeInst, VisaOp.closeRM]
      let settings : List (String × String) :=
        [("Waveform", (resp (ch ++ ":FUNC?")).trim),
         ("Frequency",
          if w ∉ (["NOIS", "DC"] : List String) then (resp (ch ++ ":FREQ?")).trim
          else "N/A"),
         ("Amplitude", (resp (ch ++ ":VOLT?")).trim),
         ("Offset", (resp (ch ++ ":VOLT:OFFS?")).trim),
         ("Output State", (resp ("OUTP" ++ toString channel ++ "?")).trim),
         ("Error Status", (resp "SYST:ERR?").trim)]
      (ops, Except.ok settings)

example :
    (configureAfg1022 (fun _ => "0") "A" 3 "SIN" 1000 2 0 "ON" true).2 =
      Except.error AfgError.badChannel := by with_unfolding_all decide
example :
    (configureAfg1022 (fun _ => "0") "A" 1 "nois" (-5) 2 0 "OFF" false).1 =
      [VisaOp.openRM, VisaOp.openResource "A",
       VisaOp.write "SOUR1:FUNC NOIS",
       VisaOp.write ("SOUR1:VOLT " ++ toString (2 : ℚ)),
       VisaOp.write ("SOUR1:VOLT:OFFS " ++ toString (0 : ℚ)),
       VisaOp.write "OUTP1 OFF", VisaOp.query "SOUR1:FUNC?",
       VisaOp.query "SOUR1:VOLT?", VisaOp.query "SOUR1:VOLT:OFFS?",
       VisaOp.query "OUTP1?", VisaOp.query "SYST:ERR?",
       VisaOp.closeInst, VisaOp.closeRM] := by with_unfolding_all decide

theorem map_some_filterMap_id (l : List ℚ) : (l.map some).filterMap id = l := by
  induction l with
  | nil => rfl
  | cons a t ih => simp [List.filterMap_cons, ih]

theorem pymedian_map_some (l : List ℚ) (h : l ≠ []) :
    pymedian (l.map some) = some (ratMedian l) := by
  simp [pymedian, map_some_filterMap_id, h]

theorem pymean_map_some (l : List ℚ) (h : l ≠ []) :
    pymean (l.map some) = some (ratMean l) := by
  simp [pymean, map_some_filterMap_id, h]

theorem nlt_none (v : NFloat) : nlt v none = false := by
  cases v <;> rfl

theorem nlt_some_some (a b : ℚ) : nlt (some a) (some b) = decide (a < b) := rfl

theorem filter_nlt_map_some (l : List ℚ) (T : ℚ) :
    (l.map some).filter (fun v => nlt v (some T)) =
      (l.filter (fun x => decide (x < T))).map some := by
  induction l with
  | nil => rfl
  | cons a t ih =>
    by_cases hx : a < T
    · simp [List.map_cons, List.filter_cons, nlt_some_some, hx, ih]
    · simp [List.map_cons, List.filter_cons, nlt_some_some, hx, ih]

theorem exists_mem_le_ratMedian (l : List ℚ) (h : l ≠ []) :
    ∃ x ∈ l, x ≤ ratMedian l := by
  have hperm := List.perm_insertionSort (fun a b : ℚ => a ≤ b) l
  have hsorted := List.sorted_insertionSort (fun a b : ℚ => a ≤ b) l
  set s := List.insertionSort (fun a b : ℚ => a ≤ b) l with hs
  have hlen : 0 < s.length := by
    rw [hperm.length_eq]
    exact List.length_pos.mpr h
  simp only [ratMedian, ← hs]
  by_cases hpar : s.length % 2 = 1
  · rw [if_pos hpar]
    have hidx : s.length / 2 < s.length := Nat.div_lt_self hlen (by omega)
    refine ⟨s[s.length / 2], hperm.mem_iff.mp (List.getElem_mem hidx), ?_⟩
    rw [List.getD_eq_getElem?_getD, List.getElem?_eq_getElem hidx]
    exact le_refl _
  · rw [if_neg hpar]
    have h2 : s.length % 2 = 0 := by omega
    have hge2 : 2 ≤ s.length := by omega
    have hj : s.length / 2 < s.length := Nat.div_lt_self hlen (by omega)
    have hi1 : 1 ≤ s.length / 2 := by omega
    have hii : s.length / 2 - 1 < s.length := by omega
    have hab : s[s.length / 2 - 1] ≤ s[s.length / 2] := by
      have := hsorted.rel_get_of_lt
        (a := ⟨s.length / 2 - 1, hii⟩) (b := ⟨s.length / 2, hj⟩)
        (by simp [Fin.mk_lt_mk]; omega)
      simpa [List.get_eq_getElem] using this
    refine ⟨s[s.length / 2 - 1], hperm.mem_iff.mp (List.getElem_mem hii), ?_⟩
    rw [List.getD_eq_getElem?_getD, List.getElem?_eq_getElem hii,
      List.getD_eq_getElem?_getD, List.getElem?_eq_getElem hj]
    simp only [Option.getD_some]
    linarith

theorem cleanedTraceWith_all_parsed (p : NFloat) (toks : List String)
    (h : ∀ t ∈ toks, (pyFloat t).isSome = true) :
    cleanedTraceWith p toks = (toks.filterMap pyFloat).map some := by
  induction toks with
  | nil => rfl
  | cons t ts ih =>
    obtain ⟨v, hv⟩ := Option.isSome_iff_exists.mp (h t (by simp))
    have ih2 := ih (fun u hu => h u (List.mem_cons_of_mem _ hu))
    simp only [cleanedTraceWith, List.map_cons, List.filterMap_cons, hv] at ih2 ⊢
    rw [ih2]

theorem firstPass_nil_of_all_malformed (toks : List String)
    (h : ∀ t ∈ toks, pyFloat t = none) : firstPass toks = [] := by
  simpa [firstPass, List.filterMap_eq_nil_iff] using h

theorem cleanedTrace_all_malformed (toks : List String)
    (h : ∀ t ∈ toks, pyFloat t = none) :
    cleanedTrace toks = toks.map (fun _ => none) := by
  have h1 : noiseFloorFirst toks = none := by
    rw [noiseFloorFirst, firstPass_nil_of_all_malformed toks h]
    rfl
  unfold cleanedTrace cleanedTraceWith
  rw [h1]
  refine List.map_congr_left ?_
  intro t ht
  rw [h t ht]

theorem noiseData_eq_nil_of_nan_threshold (toks : List String)
    (h : thresholdOf toks = none) : noiseData toks = [] := by
  unfold noiseData
  rw [h]
  simp [nlt_none]

theorem noiseFloorFinal_real (toks : List String) (xs : List ℚ)
    (hc : cleanedTrace toks = xs.map some) (hne : xs ≠ []) :
    noiseFloorFinal toks =
      some (ratMean (xs.filter (fun x => decide (x < ratMedian xs + 10)))) := by
  have hfne : xs.filter (fun x => decide (x < ratMedian xs + 10)) ≠ [] := by
    obtain ⟨x, hx, hle⟩ := exists_mem_le_ratMedian xs hne
    exact List.ne_nil_of_mem (List.mem_filter.mpr ⟨hx, by simp; linarith⟩)
  unfold noiseFloorFinal noiseData thresholdOf medianPower
  rw [hc, pymedian_map_some xs hne]
  have hth : nadd (some (ratMedian xs)) (some 10) = some (ratMedian xs + 10) := rfl
  rw [hth, filter_nlt_map_some, pymean_map_some _ hfne]

/-- C1: in the repair pass, every malformed token is replaced by the median of
the successfully parsed values collected in a first pass over the full
sequence, computed before any substitution; on ["1.0","x","3.0","5.0"] the
substitution value is median [1.0,3.0,5.0] = 3.0 and the cleaned trace is
[1.0,3.0,3.0,5.0]. -/
theorem placeholder_is_first_pass_median :
    (∀ (toks : List String) (i : ℕ) (t : String),
        toks[i]? = some t → pyFloat t = none → firstPass toks ≠ [] →
        (cleanedTrace toks)[i]? = some (some (ratMedian (firstPass toks))))
    ∧ cleanedTrace ["1.0", "x", "3.0", "5.0"] =
        [some 1, some 3, some 3, some 5] := by
  constructor
  · intro toks i t hit hmal hne
    have hstep : (cleanedTrace toks)[i]? = some (noiseFloorFirst toks) := by
      simp [cleanedTrace, cleanedTraceWith, hit, hmal]
    rw [hstep, noiseFloorFirst, pymedian_map_some _ hne]
  · with_unfolding_all decide

theorem placeholder_is_first_pass_median_inst :
    (cleanedTrace ["1.0", "x", "3.0", "5.0"])[1]? =
      some (some (ratMedian (firstPass ["1.0", "x", "3.0", "5.0"]))) :=
  placeholder_is_first_pass_median.1 ["1.0", "x", "3.0", "5.0"] 1 "x"
    (by with_unfolding_all decide) (by with_unfolding_all decide)
    (by with_unfolding_all decide)

/-- C2 counterexample: on the all-malformed input ["x","y","z"] the code does
not fail with any error: np.median of the empty valid set is NaN, NaN is
substituted at every position, and the returned result is the pair
(trace of NaNs, NaN) — a partial result with NaN propagated, contradicting
the claim that an InsufficientDataError is raised and no result returned. -/
theorem all_malformed_returns_nan_result :
    estimate ["x", "y", "z"] = ([none, none, none], none) := by
  with_unfolding_all decide

/-- C2 amended: for every input in which every token fails numeric parsing,
the estimator raises nothing and returns (trace of NaNs, NaN): the empty-set
median NaN is substituted everywhere and the final noise floor is NaN. -/
theorem all_malformed_propagates_nan (toks : List String)
    (h : ∀ t ∈ toks, pyFloat t = none) :
    estimate toks = (toks.map (fun _ => none), none) := by
  have hc := cleanedTrace_all_malformed toks h
  have hth : thresholdOf toks = none := by
    unfold thresholdOf medianPower
    rw [hc]
    cases toks with
    | nil => rfl
    | cons t ts =>
      have hmed : pymedian ((t :: ts).map (fun _ => none)) = none := by
        simp [pymedian]
      rw [hmed]
      rfl
  have hnd := noiseData_eq_nil_of_nan_threshold toks hth
  unfold estimate noiseFloorFinal
  rw [hc, hnd]
  rfl

theorem all_malformed_propagates_nan_inst :
    estimate ["x"] = (["x"].map (fun _ => none), none) :=
  all_malformed_propagates_nan ["x"] (by with_unfolding_all decide)

/-- C3 counterexample: input ["a","b"] produces a cleaned trace whose
sub-threshold subset is empty, and the estimator does not fail with an
error: it returns noise_floor = NaN (np.mean of an empty array), so a
successful call can return NaN. -/
theorem empty_subset_returns_nan :
    noiseData ["a", "b"] = [] ∧ noiseFloorFinal ["a", "b"] = none := by
  constructor
  · with_unfolding_all decide
  · with_unfolding_all decide

/-- C3 amended: when the sub-threshold subset is empty the estimator returns
NaN as the noise floor rather than raising an error; whenever the subset is
nonempty and free of NaN, the returned noise floor is a finite rational. -/
theorem empty_subset_nan_nonempty_finite (toks : List String) :
    (noiseData toks = [] → noiseFloorFinal toks = none)
    ∧ (noiseData toks ≠ [] → (∀ v ∈ noiseData toks, v ≠ none) →
        ∃ q : ℚ, noiseFloorFinal toks = some q) := by
  constructor
  · intro h
    unfold noiseFloorFinal
    rw [h]
    rfl
  · intro hne hreal
    have hcond : ((noiseData toks).isEmpty
        || (noiseData toks).any (fun v => v.isNone)) = false := by
      rw [Bool.or_eq_false_iff]
      constructor
      · simpa [List.isEmpty_eq_false] using hne
      · rw [List.any_eq_false]
        intro v hv
        cases v with
        | none => exact absurd rfl (hreal none hv)
        | some q => simp
    unfold noiseFloorFinal pymean
    rw [if_neg (by simp [hcond])]
    exact ⟨_, rfl⟩

theorem empty_subset_nan_nonempty_finite_inst :
    noiseFloorFinal ["a", "b"] = none ∧
      ∃ q : ℚ, noiseFloorFinal ["0.0", "1.0"] = some q :=
  ⟨(empty_subset_nan_nonempty_finite ["a", "b"]).1
      (by with_unfolding_all decide),
   (empty_subset_nan_nonempty_finite ["0.0", "1.0"]).2
      (by with_unfolding_all decide) (by with_unfolding_all decide)⟩

/-- C4: on every cleaned trace of real (non-NaN) values, the noise floor is
the arithmetic mean of exactly those cleaned-trace values strictly less than
median + 10.0; on cleaned trace [0,0,0,0,20] the median is 0, the value 20 is
excluded by the threshold 10, and the noise floor is 0. -/
theorem noise_floor_is_thresholded_mean :
    (∀ (toks : List String) (xs : List ℚ),
        cleanedTrace toks = xs.map some → xs ≠ [] →
        noiseFloorFinal toks =
          some (ratMean (xs.filter (fun x => decide (x < ratMedian xs + 10)))))
    ∧ ratMedian [0, 0, 0, 0, 20] = 0
    ∧ noiseFloorFinal ["0", "0", "0", "0", "20"] = some 0 := by
  refine ⟨noiseFloorFinal_real, ?_, ?_⟩
  · with_unfolding_all decide
  · with_unfolding_all decide

theorem noise_floor_is_thresholded_mean_inst :
    noiseFloorFinal ["1.0", "2.0"] =
      some (ratMean (([1, 2] : List ℚ).filter
        (fun x => decide (x < ratMedian [1, 2] + 10)))) :=
  noise_floor_is_thresholded_mean.1 ["1.0", "2.0"] [1, 2]
    (by with_unfolding_all decide) (by with_unfolding_all decide)

/-- C5: the cleaned trace always has exactly the length of the raw token
sequence: malformed tokens are replaced in place, never dropped. -/
theorem cleaned_trace_length_invariant (toks : List String) :
    (cleanedTrace toks).length = toks.length := by
  simp [cleanedTrace, cleanedTraceWith]

/-- C6: if every token parses successfully, the cleaned trace equals the
sequence of parsed values exactly, element for element; no substitution
occurs. -/
theorem clean_input_parses_identically (toks : List String)
    (h : ∀ t ∈ toks, (pyFloat t).isSome = true) :
    cleanedTrace toks = (toks.filterMap pyFloat).map some :=
  cleanedTraceWith_all_parsed _ toks h

theorem clean_input_parses_identically_inst :
    cleanedTrace ["1.5", "2.0"] = (["1.5", "2.0"].filterMap pyFloat).map some :=
  clean_input_parses_identically ["1.5", "2.0"] (by with_unfolding_all decide)

/-- C7 counterexample: the first noise_floor computation is not dead code —
its value is the substitution placeholder of the repair pass.  An estimator
in which the value of that computation is replaced by another value (here 0,
as removing the computation would leave it unspecified) returns a different
(cleaned_trace, noise_floor) pair on ["1.0","x","3.0","5.0"]. -/
theorem first_median_is_not_dead :
    estimateWith (some 0) ["1.0", "x", "3.0", "5.0"] ≠
      estimate ["1.0", "x", "3.0", "5.0"] := by
  with_unfolding_all decide

/-- C7 amended: the first noise_floor value is dead only as the final
noise-floor output — the surviving final value is the section-4.1 thresholded
mean applied to the cleaned trace — while the computation itself is live as
the substitution placeholder: its value is irrelevant to the output exactly
on inputs where every token parses. -/
theorem first_median_dead_only_as_output :
    (∀ toks : List String,
        noiseFloorFinal toks = noiseFloorOfCleaned (cleanedTrace toks))
    ∧ (∀ (p : NFloat) (toks : List String),
        (∀ t ∈ toks, (pyFloat t).isSome = true) →
        estimateWith p toks = estimate toks) := by
  constructor
  · intro toks
    rfl
  · intro p toks h
    have h1 : cleanedTraceWith p toks = cleanedTrace toks := by
      rw [cleanedTraceWith_all_parsed p toks h, cleanedTrace,
        cleanedTraceWith_all_parsed _ toks h]
    unfold estimateWith estimate
    rw [h1]
    rfl

theorem first_median_dead_only_as_output_inst :
    estimateWith none ["2.0"] = estimate ["2.0"] :=
  first_median_dead_only_as_output.2 none ["2.0"] (by with_unfolding_all decide)

/-- C8: the estimator is deterministic and pure: it is modelled as a total
function of the token sequence alone, so two calls on identical inputs return
identical (cleaned_trace, noise_floor) pairs, and no other state exists for
the computation to affect. -/
theorem estimator_deterministic (t1 t2 : List String) (h : t1 = t2) :
    estimate t1 = estimate t2 := by
  rw [h]

theorem estimator_deterministic_inst :
    estimate ["1.0", "x"] = estimate ["1.0", "x"] :=
  estimator_deterministic ["1.0", "x"] ["1.0", "x"] rfl

/-- C9: configure_afg1022 validates channel, waveform, frequency range and
output state before touching VISA: on any invalid argument it raises a
ValueError with an empty operation trace — no resource manager is created
and no instrument connection is opened, so a rejected call has no external
effect. -/
theorem afg_validation_rejects_before_any_visa_op
    (resp : String → String) (addr : String) (channel : ℤ) (waveform : String)
    (frequency amplitude offset : ℚ) (outputState : String) (reset : Bool)
    (h : channel ∉ ([1, 2] : List ℤ) ∨ waveform.toUpper ∉ validWaveforms ∨
      (waveform.toUpper ∈ validWaveforms ∧
        waveform.toUpper ∉ (["NOIS", "DC"] : List String) ∧
        freqOutOfRange waveform.toUpper frequency = true) ∨
      outputState ∉ (["ON", "OFF"] : List String)) :
    ∃ e, configureAfg1022 resp addr channel waveform frequency amplitude offset
        outputState reset = ([], Except.error e) := by
  simp only [configureAfg1022]
  by_cases h1 : channel ∉ ([1, 2] : List ℤ)
  · rw [if_pos h1]
    exact ⟨_, rfl⟩
  · rw [if_neg h1]
    by_cases h2 : waveform.toUpper ∉ validWaveforms
    · rw [if_pos h2]
      exact ⟨_, rfl⟩
    · rw [if_neg h2]
      by_cases h3 : waveform.toUpper ∉ (["NOIS", "DC"] : List String) ∧
          freqOutOfRange waveform.toUpper frequency = true
      · rw [if_pos h3]
        exact ⟨_, rfl⟩
      · rw [if_neg h3]
        by_cases h4 : outputState ∉ (["ON", "OFF"] : List String)
        · rw [if_pos h4]
          exact ⟨_, rfl⟩
        · exfalso
          rcases h with hh | hh | hh | hh
          · exact h1 hh
          · exact h2 hh
          · exact h3 ⟨hh.2.1, hh.2.2⟩
          · exact h4 hh

theorem afg_validation_rejects_before_any_visa_op_inst :
    ∃ e, configureAfg1022 (fun _ => "") "A" 3 "SIN" 1000 2 0 "ON" true =
      ([], Except.error e) :=
  afg_validation_rejects_before_any_visa_op (fun _ => "") "A" 3 "SIN" 1000 2 0
    "ON" true (Or.inl (by with_unfolding_all decide))

/-- C10: when the (upper-cased) waveform is NOIS or DC, the frequency
argument is never range-checked and never sent to the instrument: for every
frequency value, even a negative one, the call succeeds, the operation trace
is exactly the sequence below — which contains no :FREQ write and no :FREQ?
query and does not depend on the frequency at all — and the returned settings
report Frequency as "N/A". -/
theorem afg_nois_dc_ignores_frequency
    (resp : String → String) (addr : String) (channel : ℤ) (waveform : String)
    (frequency amplitude offset : ℚ) (outputState : String) (reset : Bool)
    (hch : channel ∈ ([1, 2] : List ℤ))
    (hw : waveform.toUpper ∈ (["NOIS", "DC"] : List String))
    (hos : outputState ∈ (["ON", "OFF"] : List String)) :
    configureAfg1022 resp addr channel waveform frequency amplitude offset
        outputState reset =
      ([VisaOp.openRM, VisaOp.openResource addr] ++
        (if reset then [VisaOp.write "*RST"] else []) ++
        [VisaOp.write ("SOUR" ++ toString channel ++ ":FUNC " ++ waveform.toUpper),
         VisaOp.write ("SOUR" ++ toString channel ++ ":VOLT " ++ toString amplitude),
         VisaOp.write ("SOUR" ++ toString channel ++ ":VOLT:OFFS " ++ toString offset),
         VisaOp.write ("OUTP" ++ toString channel ++ " " ++ outputState),
         VisaOp.query ("SOUR" ++ toString channel ++ ":FUNC?"),
         VisaOp.query ("SOUR" ++ toString channel ++ ":VOLT?"),
         VisaOp.query ("SOUR" ++ toString channel ++ ":VOLT:OFFS?"),
         VisaOp.query ("OUTP" ++ toString channel ++ "?"),
         VisaOp.query "SYST:ERR?", VisaOp.closeInst, VisaOp.closeRM],
       Except.ok
         [("Waveform", (resp ("SOUR" ++ toString channel ++ ":FUNC?")).trim),
          ("Frequency", "N/A"),
          ("Amplitude", (resp ("SOUR" ++ toString channel ++ ":VOLT?")).trim),
          ("Offset", (resp ("SOUR" ++ toString channel ++ ":VOLT:OFFS?")).trim),
          ("Output State", (resp ("OUTP" ++ toString channel ++ "?")).trim),
          ("Error Status", (resp "SYST:ERR?").trim)]) := by
  have hvalid : waveform.toUpper ∈ validWaveforms := by
    have hcases : waveform.toUpper = "NOIS" ∨ waveform.toUpper = "DC" := by
      simpa using hw
    rcases hcases with hcase | hcase <;> simp [validWaveforms, hcase]
  have hns : (waveform.toUpper ∉ (["NOIS", "DC"] : List String)) = False :=
    eq_false (fun hc => hc hw)
  simp only [configureAfg1022]
  rw [if_neg (fun hc => hc hch), if_neg (fun hc => hc hvalid),
    if_neg (fun hc => hc.1 hw), if_neg (fun hc => hc hos)]
  simp only [hns, if_false]
  cases reset <;> simp

theorem afg_nois_dc_ignores_frequency_inst :
    configureAfg1022 (fun _ => "ok") "A" 1 "nois" (-5) 2 0 "OFF" false =
      ([VisaOp.openRM, VisaOp.openResource "A"] ++
        (if false then [VisaOp.write "*RST"] else []) ++
        [VisaOp.write ("SOUR" ++ toString (1 : ℤ) ++ ":FUNC " ++ "nois".toUpper),
         VisaOp.write ("SOUR" ++ toString (1 : ℤ) ++ ":VOLT " ++ toString (2 : ℚ)),
         VisaOp.write ("SOUR" ++ toString (1 : ℤ) ++ ":VOLT:OFFS " ++ toString (0 : ℚ)),
         VisaOp.write ("OUTP" ++ toString (1 : ℤ) ++ " " ++ "OFF"),
         VisaOp.query ("SOUR" ++ toString (1 : ℤ) ++ ":FUNC?"),
         VisaOp.query ("SOUR" ++ toString (1 : ℤ) ++ ":VOLT?"),
         VisaOp.query ("SOUR" ++ toString (1 : ℤ) ++ ":VOLT:OFFS?"),
         VisaOp.query ("OUTP" ++ toString (1 : ℤ) ++ "?"),
         VisaOp.query "SYST:ERR?", VisaOp.closeInst, VisaOp.closeRM],
       Except.ok
         [("Waveform", ((fun (_ : String) => "ok") ("SOUR" ++ toString (1 : ℤ) ++ ":FUNC?")).trim),
          ("Frequency", "N/A"),
          ("Amplitude", ((fun (_ : String) => "ok") ("SOUR" ++ toString (1 : ℤ) ++ ":VOLT?")).trim),
          ("Offset", ((fun (_ : String) => "ok") ("SOUR" ++ toString (1 : ℤ) ++ ":VOLT:OFFS?")).trim),
          ("Output State", ((fun (_ : String) => "ok") ("OUTP" ++ toString (1 : ℤ) ++ "?")).trim),
          ("Error Status", ((fun (_ : String) => "ok") "SYST:ERR?").trim)]) :=
  afg_nois_dc_ignores_frequency (fun _ => "ok") "A" 1 "nois" (-5) 2 0 "OFF"
    false (by with_unfolding_all decide) (by with_unfolding_all decide)
    (by with_unfolding_all decide)
